import Mathlib

/-!
Shallow embedding of the security and durability substrate of the
justice-companion repository: the IPC handlers for database backup,
restore, deletion and migration, the secure-storage encrypt/decrypt
channels, the GDPR erasure handler, the tag-evidence batch handler and
the case/notification ownership-gated accessors, as they appear in the
Electron main-process source.  Each definition mirrors one source
function; effects on the file system and the audit ledger are made
explicit as traces so that the spec's safety statements can be settled.
-/

namespace JusticeCompanion

/-! ### Domain errors (src/errors/DomainErrors.ts, as raised by the handlers) -/

inductive DomainError
  | databaseError (op : String) (msg : String)
  | fileNotFoundError (msg : String)
  | unauthorized
  | caseNotFound (id : Nat)
  | notificationNotFound (id : Nat)
  | evidenceNotFound (msg : String)
  | validationError (msg : String)
  | genericError (msg : String)
  deriving Repr, DecidableEq

/-- The two messages the restore/deleteBackup handlers use for the
path-traversal rejections; the spec's taxonomy calls both `PathTraversal`. -/
def isPathTraversalError : DomainError → Bool
  | .databaseError _ msg =>
      msg = "Invalid backup filename - path traversal not allowed" ||
      msg = "Invalid backup path - outside backup directory"
  | _ => false

def resOk {ε α : Type} : Except ε α → Bool
  | .ok _ => true
  | .error _ => false

def resultIsPathTraversal {α : Type} : Except DomainError α → Bool
  | .error e => isPathTraversalError e
  | .ok _ => false

def isUnauthorizedResult {α : Type} : Except DomainError α → Bool
  | .error .unauthorized => true
  | _ => false

/-! ### Path model

`path.join`/`path.resolve` over an absolute backup directory given as a
component list; filenames are JS strings.  `includes("/")`,
`includes("\\")` and `includes("..")` are the substring checks the
handlers run first; `jsStartsWith` is `String.prototype.startsWith` on
the rendered resolved paths, as the handlers compare them. -/

def isSepChar (c : Char) : Bool := c = '/' || c = '\\'

def containsSep (s : String) : Bool := s.data.any isSepChar

def hasDotDotAux : List Char → Bool
  | '.' :: '.' :: _ => true
  | _ :: rest => hasDotDotAux rest
  | [] => false

/-- JS `filename.includes("..")`: two adjacent dots anywhere in the string. -/
def hasDotDot (s : String) : Bool := hasDotDotAux s.data

def splitPathAux : List Char → List Char → List String
  | [], acc => if acc.isEmpty then [] else [String.mk acc.reverse]
  | c :: rest, acc =>
    if isSepChar c then
      (if acc.isEmpty then [] else [String.mk acc.reverse]) ++ splitPathAux rest []
    else splitPathAux rest (c :: acc)

def splitPath (s : String) : List String := splitPathAux s.data []

/-- One step of path normalization: `.` is dropped, `..` pops a component
(clamped at the root), anything else is appended. -/
def normStep (acc : List String) (comp : String) : List String :=
  if comp = "." then acc
  else if comp = ".." then acc.dropLast
  else acc ++ [comp]

def normalizePath (comps : List String) : List String := comps.foldl normStep []

def renderPath (comps : List String) : String :=
  comps.foldl (fun s c => s ++ "/" ++ c) ""

/-- JS `s.startsWith(pre)`. -/
def jsStartsWith (s pre : String) : Bool := pre.data.isPrefixOf s.data

/-- `path.resolve(path.join(backupDir, filename))` rendered as a string. -/
def resolveJoin (dir : List String) (fname : String) : String :=
  renderPath (normalizePath (dir ++ splitPath fname))

/-- `path.resolve(backupDir)` rendered as a string. -/
def resolvedDir (dir : List String) : String := renderPath (normalizePath dir)

/-! ### Primary store, backup directory, file-system and audit traces -/

/-- Content of a database file: whether it opens as a well-formed store,
and its total row count. -/
structure DbFile where
  valid : Bool
  records : Nat
  deriving Repr, DecidableEq

/-- The primary store (`justice.db`), the flat backup directory keyed by
filename, and the Open/Closed state of the primary connection. -/
structure StoreState where
  mainDb : Option DbFile
  backups : List (String × DbFile)
  storeOpen : Bool
  deriving Repr, DecidableEq

inductive FsOp
  | existsCheck (name : String)
  | openReadonly (name : String)
  | copyToBackup (dst : String)
  | copyToMain (src : String)
  | deleteFile (name : String)
  | closeStore
  | openStore
  | readCountsLive
  | readCountsFile (name : String)
  | runMigrations
  deriving Repr, DecidableEq

/-- An audit ledger entry as the handlers pass it to `logAuditEvent`:
`details` holds the keys of the structured details payload when one is
passed (the values are handler-local strings and numbers), `none` when
the call has no `details` property; `errorMessage` likewise.  The
backup/restore/migrate handlers never pass an `errorMessage` property —
where they report an error they put it inside `details` under the key
`"error"`. -/
structure AuditEvent where
  eventType : String
  userId : Option String
  resourceType : String
  resourceId : String
  action : String
  success : Bool
  details : Option (List String)
  errorMessage : Option String
  deriving Repr, DecidableEq

/-- Result of one handler invocation: the IPC result, the store state it
leaves behind, the file-system operations it performed in order, and the
audit events it recorded. -/
structure HandlerOut (α : Type) where
  result : Except DomainError α
  state : StoreState
  fsOps : List FsOp
  audits : List AuditEvent
  deriving Repr

/-! ### db:restore (src/unnamed/part_004, lines 778-901)

The handler body given the session-resolved userId.  `copyOk` is the
file-system oracle for `fs.copyFileSync(backupPath, mainDbPath)` inside
the critical section (disk full, permission denied); the other copies are
taken to succeed.  The catch block records the failure audit event for
every thrown error, including the validation rejections. -/

def restoreAudit (userId : Nat) (ok : Bool) : AuditEvent :=
  { eventType := "DATABASE_BACKUP_RESTORED", userId := some (toString userId),
    resourceType := "database", resourceId := "main", action := "restore",
    success := ok,
    details := some (if ok then ["backupFilename"] else ["backupFilename", "error"]),
    errorMessage := none }

def dbRestore (dir : List String) (fname : String) (timestamp : String)
    (copyOk : Bool) (userId : Nat) (st : StoreState) : HandlerOut Unit :=
  if containsSep fname || hasDotDot fname then
    { result := .error (.databaseError "restore"
        "Invalid backup filename - path traversal not allowed"),
      state := st, fsOps := [], audits := [restoreAudit userId false] }
  else if !(jsStartsWith (resolveJoin dir fname) (resolvedDir dir)) then
    { result := .error (.databaseError "restore"
        "Invalid backup path - outside backup directory"),
      state := st, fsOps := [], audits := [restoreAudit userId false] }
  else
    match st.backups.lookup fname with
    | none =>
      { result := .error (.fileNotFoundError "Backup file not found"),
        state := st, fsOps := [.existsCheck fname],
        audits := [restoreAudit userId false] }
    | some file =>
      if !file.valid then
        { result := .error (.databaseError "restore"
            "Backup file is corrupted or invalid"),
          state := st, fsOps := [.existsCheck fname, .openReadonly fname],
          audits := [restoreAudit userId false] }
      else
        let snapName := "pre-restore_" ++ timestamp ++ ".db"
        let st1 :=
          match st.mainDb with
          | some m => { st with backups := st.backups ++ [(snapName, m)] }
          | none => st
        let ops1 :=
          match st.mainDb with
          | some _ => [.existsCheck fname, .openReadonly fname, .copyToBackup snapName]
          | none => [.existsCheck fname, .openReadonly fname]
        let st2 := { st1 with storeOpen := false }
        if copyOk then
          { result := .ok (),
            state := { st2 with mainDb := some file, storeOpen := true },
            fsOps := ops1 ++ [.closeStore, .copyToMain fname, .openStore],
            audits := [restoreAudit userId true] }
        else
          { result := .error (.genericError "EIO: copy failed"),
            state := st2,
            fsOps := ops1 ++ [.closeStore],
            audits := [restoreAudit userId false] }

/-! ### db:deleteBackup (src/unnamed/part_004, lines 903-996) -/

def deleteBackupAudit (userId : Nat) (fname : String) (ok : Bool) : AuditEvent :=
  { eventType := "DATABASE_BACKUP_DELETED", userId := some (toString userId),
    resourceType := "database", resourceId := fname, action := "delete",
    success := ok,
    details := some (if ok then ["backupFilename"] else ["error"]),
    errorMessage := none }

def dbDeleteBackup (dir : List String) (fname : String) (userId : Nat)
    (st : StoreState) : HandlerOut Unit :=
  if containsSep fname || hasDotDot fname then
    { result := .error (.databaseError "delete backup"
        "Invalid backup filename - path traversal not allowed"),
      state := st, fsOps := [], audits := [deleteBackupAudit userId fname false] }
  else if !(jsStartsWith (resolveJoin dir fname) (resolvedDir dir)) then
    { result := .error (.databaseError "delete backup"
        "Invalid backup path - outside backup directory"),
      state := st, fsOps := [], audits := [deleteBackupAudit userId fname false] }
  else
    match st.backups.lookup fname with
    | none =>
      { result := .error (.fileNotFoundError "Backup file not found"),
        state := st, fsOps := [.existsCheck fname],
        audits := [deleteBackupAudit userId fname false] }
    | some _ =>
      { result := .ok (),
        state := { st with backups := st.backups.filter (fun p => p.1 != fname) },
        fsOps := [.existsCheck fname, .deleteFile fname],
        audits := [deleteBackupAudit userId fname true] }

/-! ### db:backup (src/unnamed/part_004, lines 586-667)

After copying the primary file to `backup_<timestamp>.db`, the handler
reads the table list and row counts through
`databaseManager.getDatabase()` — the live primary handle — and uses them
for the returned metadata.  The trace records which source the counts
were read from. -/

structure BackupMetadata where
  filename : String
  recordCount : Nat
  isValid : Bool
  deriving Repr, DecidableEq

def backupAudit (ok : Bool) : AuditEvent :=
  { eventType := "DATABASE_BACKUP_CREATED", userId := none,
    resourceType := "database", resourceId := "main", action := "backup",
    success := ok, details := none, errorMessage := none }

def dbBackup (timestamp : String) (st : StoreState) : HandlerOut BackupMetadata :=
  let backupFilename := "backup_" ++ timestamp ++ ".db"
  match st.mainDb with
  | none =>
    { result := .error (.fileNotFoundError "Main database file not found"),
      state := st, fsOps := [.existsCheck "justice.db"],
      audits := [backupAudit false] }
  | some m =>
    { result := .ok { filename := backupFilename, recordCount := m.records,
                      isValid := true },
      state := { st with backups := st.backups ++ [(backupFilename, m)] },
      fsOps := [.existsCheck "justice.db", .copyToBackup backupFilename,
                .readCountsLive],
      audits := [backupAudit true] }

/-! ### db:migrate (src/unnamed/part_004, lines 537-584)

The handler takes no sessionId and calls no authorization wrapper.  It
calls `createBackup` (src/db/backup.ts) and `runMigrations` /
`getMigrationStatus` (src/db/migrate.ts), none of which are in the
source tree; they enter as an oracle environment.  The success path logs
one audit event; the catch block returns `formatError(error)` without
logging any audit event. -/

structure MigrateEnv where
  backupRes : Except DomainError String
  runRes : Except DomainError Unit
  applied : Nat
  pending : Nat

structure MigrateOut where
  result : Except DomainError (Nat × Nat)
  fsOps : List FsOp
  audits : List AuditEvent
  deriving Repr

def migrateAudit : AuditEvent :=
  { eventType := "DATABASE_MIGRATED", userId := none,
    resourceType := "database", resourceId := "main", action := "migrate",
    success := true,
    details := some ["backupCreated", "migrationsApplied", "migrationsPending"],
    errorMessage := none }

def dbMigrate (env : MigrateEnv) : MigrateOut :=
  match env.backupRes with
  | .error e => { result := .error e, fsOps := [], audits := [] }
  | .ok backupName =>
    match env.runRes with
    | .error e =>
      { result := .error e, fsOps := [.copyToBackup backupName], audits := [] }
    | .ok () =>
      { result := .ok (env.applied, env.pending),
        fsOps := [.copyToBackup backupName, .runMigrations],
        audits := [migrateAudit] }

/-! ### Session authorization guard -/

/-- Modelled from the spec: `electron/utils/authorization-wrapper.ts`
(`withAuthorization`) is not in the source tree, only its callers are.
Per spec section 4.1, `run(sessionId, work)` resolves the opaque session
identifier to a user and fails with `Unauthorized` when it resolves to no
user; on success it invokes `work` with the resolved numeric userId.  The
session table is the lookup environment; an absent or unknown sessionId
resolves to no user. -/
def withAuthorization {α : Type} (sessions : List (String × Nat))
    (sessionId : String) (st : StoreState) (work : Nat → HandlerOut α) :
    HandlerOut α :=
  match sessions.lookup sessionId with
  | none => { result := .error .unauthorized, state := st, fsOps := [], audits := [] }
  | some userId => work userId

def dbRestoreHandler (sessions : List (String × Nat)) (sessionId : String)
    (dir : List String) (fname : String) (timestamp : String) (copyOk : Bool)
    (st : StoreState) : HandlerOut Unit :=
  withAuthorization sessions sessionId st
    (fun userId => dbRestore dir fname timestamp copyOk userId st)

def dbDeleteBackupHandler (sessions : List (String × Nat)) (sessionId : String)
    (dir : List String) (fname : String) (st : StoreState) : HandlerOut Unit :=
  withAuthorization sessions sessionId st
    (fun userId => dbDeleteBackup dir fname userId st)

/-! ### case:get (src/unnamed/part_005, lines 206-276)

A single `WHERE id = ? AND user_id = ?` query; a missing row and a row
owned by another user both take the same branch and throw the same
error.  The success path records a `CASE_VIEWED` audit event. -/

structure CaseRow where
  id : Nat
  userId : Nat
  title : String
  deriving Repr, DecidableEq

def caseViewedAudit (userId caseId : Nat) : AuditEvent :=
  { eventType := "CASE_VIEWED", userId := some (toString userId),
    resourceType := "case", resourceId := toString caseId, action := "view",
    success := true, details := none, errorMessage := none }

def caseGet (cases : List CaseRow) (caseId userId : Nat) :
    Except DomainError CaseRow × List AuditEvent :=
  match cases.find? (fun r => r.id == caseId && r.userId == userId) with
  | none =>
    (.error (.genericError
       ("Case with ID " ++ toString caseId ++ " not found or unauthorized")), [])
  | some r => (.ok r, [caseViewedAudit userId r.id])

/-! ### notifications:mark-read (src/unnamed/part_003, lines 311-370)

`getNotificationById` then
`if (!notification || notification.userId !== userId) throw new
NotificationNotFoundError(notificationId)`: the missing and the
foreign-owned cases throw the identical error. -/

structure NotificationRow where
  id : Nat
  userId : Nat
  read : Bool
  deriving Repr, DecidableEq

def markNotificationRead (rows : List NotificationRow) (notificationId userId : Nat) :
    Except DomainError Unit × List NotificationRow :=
  match rows.find? (fun r => r.id == notificationId) with
  | none => (.error (.notificationNotFound notificationId), rows)
  | some r =>
    if r.userId != userId then
      (.error (.notificationNotFound notificationId), rows)
    else
      (.ok (), rows.map (fun x => if x.id == notificationId then { x with read := true } else x))

/-! ### tags:tagEvidence (src/unnamed/part_004, lines 210-270)

The handler validates the list is nonempty and then loops over the tag
ids, calling `tagService.tagEvidence(evidenceId, tagId, userId)` per
item; a throw aborts the loop but items already applied stay applied. -/

structure TagEnv where
  owns : Nat → Nat → Bool
  tagOk : Nat → Bool

/-- Modelled from the spec: `TagService.tagEvidence` (src/services/TagService.ts)
is not in the source tree.  Per spec section 4.2 the per-item call verifies
the evidence belongs to the user and that the tag exists before inserting
the association, and fails otherwise; the handler's catch maps those
failures to `EvidenceNotFoundError` / `ValidationError`. -/
def tagEvidenceItem (env : TagEnv) (evidenceId tagId userId : Nat)
    (applied : List (Nat × Nat)) : Except DomainError (List (Nat × Nat)) :=
  if !(env.owns evidenceId userId) then
    .error (.evidenceNotFound ("Evidence " ++ toString evidenceId ++ " not found"))
  else if !(env.tagOk tagId) then
    .error (.validationError "One or more tags not found")
  else
    .ok (applied ++ [(evidenceId, tagId)])

def tagEvidenceLoop (env : TagEnv) (evidenceId userId : Nat) :
    List Nat → List (Nat × Nat) → Except DomainError Unit × List (Nat × Nat)
  | [], applied => (.ok (), applied)
  | tagId :: rest, applied =>
    match tagEvidenceItem env evidenceId tagId userId applied with
    | .error e => (.error e, applied)
    | .ok applied' => tagEvidenceLoop env evidenceId userId rest applied'

def tagEvidence (env : TagEnv) (evidenceId : Nat) (tagIds : List Nat)
    (userId : Nat) (applied : List (Nat × Nat)) :
    Except DomainError Unit × List (Nat × Nat) :=
  if tagIds.isEmpty then
    (.error (.validationError "At least one tag ID is required"), applied)
  else
    tagEvidenceLoop env evidenceId userId tagIds applied

/-- An item of the batch fails when the evidence does not belong to the
user or the tag does not exist. -/
def tagItemFails (env : TagEnv) (evidenceId userId tagId : Nat) : Bool :=
  !(env.owns evidenceId userId) || !(env.tagOk tagId)

/-! ### gdpr:delete (src/unnamed/part_003, lines 97-174) -/

structure GdprRow where
  userId : Nat
  payload : String
  deriving Repr, DecidableEq

structure GdprDb where
  cases : List GdprRow
  evidence : List GdprRow
  auditLogs : List GdprRow
  consents : List GdprRow
  deriving Repr, DecidableEq

structure GdprDeleteResult where
  db : GdprDb
  preservedAuditLogs : Nat
  preservedConsents : Nat
  deriving Repr, DecidableEq

/-- Modelled from the spec: `GdprService.deleteUserData`
(src/services/gdpr/GdprService.ts) is not in the source tree, only the
`gdpr:delete` handler that calls it and reports its
`preservedAuditLogs`/`preservedConsents` counters.  Per spec section 6 the
operation deletes the user's case and evidence rows and explicitly
preserves audit-log and consent records, which are exempt from deletion. -/
def deleteUserData (userId : Nat) (db : GdprDb) : GdprDeleteResult :=
  { db := { cases := db.cases.filter (fun r => r.userId != userId),
            evidence := db.evidence.filter (fun r => r.userId != userId),
            auditLogs := db.auditLogs,
            consents := db.consents },
    preservedAuditLogs := (db.auditLogs.filter (fun r => r.userId == userId)).length,
    preservedConsents := (db.consents.filter (fun r => r.userId == userId)).length }

/-! ### secure-storage:encryptBuffer / decryptBuffer
(src/unnamed/part_004, lines 1227-1281)

Strings are modelled as lists of Unicode scalar values and buffers as
lists of bytes.  `safeStorage.encryptString`/`decryptString` are
Electron platform primitives outside the repository; they are modelled
as an exact inverse pair over strings, so that everything proved or
refuted here is about the repository's own conversions around them:
`buffer.toString("utf8")` before encryption and `Buffer.from(decrypted)`
after decryption.  The base64 framing of the IPC payloads is a bijection
on bytes and is omitted. -/

def Str := List Nat

structure Cipher where
  data : Str

def encryptString (s : Str) : Cipher := ⟨s⟩

def decryptString (c : Cipher) : Str := c.data

def isUtf8Cont (b : Nat) : Bool := 0x80 ≤ b && b ≤ 0xBF

/-- UTF-8 encoding of one Unicode scalar value. -/
def utf8EncodeChar (n : Nat) : List Nat :=
  if n < 0x80 then [n]
  else if n < 0x800 then [0xC0 + n / 0x40, 0x80 + n % 0x40]
  else if n < 0x10000 then
    [0xE0 + n / 0x1000, 0x80 + (n / 0x40) % 0x40, 0x80 + n % 0x40]
  else
    [0xF0 + n / 0x40000, 0x80 + (n / 0x1000) % 0x40,
     0x80 + (n / 0x40) % 0x40, 0x80 + n % 0x40]

/-- `Buffer.from(string, "utf8")`: UTF-8 encode a string's scalar values. -/
def utf8Encode (s : Str) : List Nat := s.flatMap utf8EncodeChar

/-- Fuel-indexed UTF-8 decoder step; the fuel is at least the byte count
at every call, so the exhaustion branch is never taken from
`utf8DecodeReplace`. -/
def utf8DecodeReplaceAux : Nat → List Nat → Str
  | _, [] => []
  | 0, _ :: _ => []
  | fuel + 1, b :: bs =>
    if b < 0x80 then b :: utf8DecodeReplaceAux fuel bs
    else if 0xC2 ≤ b && b ≤ 0xDF then
      match bs with
      | b1 :: bs' =>
        if isUtf8Cont b1 then
          ((b - 0xC0) * 0x40 + (b1 - 0x80)) :: utf8DecodeReplaceAux fuel bs'
        else 0xFFFD :: utf8DecodeReplaceAux fuel (b1 :: bs')
      | [] => [0xFFFD]
    else if 0xE0 ≤ b && b ≤ 0xEF then
      match bs with
      | b1 :: b2 :: bs' =>
        if (isUtf8Cont b1 &&
              (decide (0xE0 < b) || 0xA0 ≤ b1) &&
              (decide (b < 0xED) || b1 ≤ 0x9F) &&
            isUtf8Cont b2) then
          ((b - 0xE0) * 0x1000 + (b1 - 0x80) * 0x40 + (b2 - 0x80)) ::
            utf8DecodeReplaceAux fuel bs'
        else 0xFFFD :: utf8DecodeReplaceAux fuel (b1 :: b2 :: bs')
      | rest => 0xFFFD :: utf8DecodeReplaceAux fuel rest
    else if 0xF0 ≤ b && b ≤ 0xF4 then
      match bs with
      | b1 :: b2 :: b3 :: bs' =>
        if (isUtf8Cont b1 &&
              (decide (0xF0 < b) || 0x90 ≤ b1) &&
              (decide (b < 0xF4) || b1 ≤ 0x8F) &&
            isUtf8Cont b2 && isUtf8Cont b3) then
          ((b - 0xF0) * 0x40000 + (b1 - 0x80) * 0x1000 +
             (b2 - 0x80) * 0x40 + (b3 - 0x80)) :: utf8DecodeReplaceAux fuel bs'
        else 0xFFFD :: utf8DecodeReplaceAux fuel (b1 :: b2 :: b3 :: bs')
      | rest => 0xFFFD :: utf8DecodeReplaceAux fuel rest
    else 0xFFFD :: utf8DecodeReplaceAux fuel bs

/-- `buffer.toString("utf8")`: decode bytes to a string, replacing
ill-formed sequences with U+FFFD as Node does. -/
def utf8DecodeReplace (bytes : List Nat) : Str :=
  utf8DecodeReplaceAux bytes.length bytes

/-- `secure-storage:encrypt` on a string followed by
`secure-storage:decrypt`: the repository passes the string straight
through the platform pair. -/
def secureStringRoundTrip (s : Str) : Str := decryptString (encryptString s)

/-- `secure-storage:encryptBuffer`: `safeStorage.encryptString(buffer.toString("utf8"))`. -/
def secureEncryptBuffer (bytes : List Nat) : Cipher :=
  encryptString (utf8DecodeReplace bytes)

/-- `secure-storage:decryptBuffer`: `Buffer.from(safeStorage.decryptString(c))`. -/
def secureDecryptBuffer (c : Cipher) : List Nat :=
  utf8Encode (decryptString c)

/-- The buffer round trip at the secure-storage interface. -/
def secureBufferRoundTrip (bytes : List Nat) : List Nat :=
  secureDecryptBuffer (secureEncryptBuffer bytes)

/-! ### Derived predicates and concrete instances used by the theorems -/

/-- The restore run reaches the close-copy-reopen critical section:
both path checks pass, the backup file exists and it opens as a
well-formed store. -/
def restoreReachesSwap (dir : List String) (fname : String) (st : StoreState) : Bool :=
  !(containsSep fname || hasDotDot fname) &&
  jsStartsWith (resolveJoin dir fname) (resolvedDir dir) &&
  (match st.backups.lookup fname with
   | some f => f.valid
   | none => false)

/-- `beforeIn a b l`: some occurrence of `a` in `l` is followed
(strictly later) by an occurrence of `b`. -/
def beforeIn (a b : FsOp) : List FsOp → Bool
  | [] => false
  | x :: xs => if x = a then decide (b ∈ xs) else beforeIn a b xs

/-- A backup directory under the user-data path. -/
def dir0 : List String := ["home", "user", "backups"]

/-- A store with no backups and the primary store present and open. -/
def st0 : StoreState :=
  { mainDb := some { valid := true, records := 3 }, backups := [], storeOpen := true }

/-- A store whose primary store file is absent. -/
def stNoMain : StoreState :=
  { mainDb := none, backups := [], storeOpen := true }

/-- A store with one well-formed backup file and the primary store open. -/
def stWithBackup : StoreState :=
  { mainDb := some { valid := true, records := 3 },
    backups := [("good.db", { valid := true, records := 7 })], storeOpen := true }

/-- An environment for `db:migrate` in which the pre-migration backup and
the migration run both succeed. -/
def migrateEnvOk : MigrateEnv :=
  { backupRes := .ok "pre_migration_backup_2026.db", runRes := .ok (),
    applied := 2, pending := 0 }

/-- An environment for `db:migrate` in which `createBackup` throws
(e.g. the disk is full): the attempt completes with a failure result. -/
def migrateEnvBackupFails : MigrateEnv :=
  { backupRes := .error (.databaseError "backup" "disk full"), runRes := .ok (),
    applied := 0, pending := 2 }

/-- A tag environment: every evidence item belongs to every user, and
only tag 1 exists. -/
def tagEnvCex : TagEnv := { owns := fun _ _ => true, tagOk := fun t => t == 1 }

/-! ## Theorems -/

/-- C1: for every backup filename that contains a path separator
(`/` or `\`) or a `..` sequence, or whose resolved absolute path does
not lie within the backup directory, both the restore operation and the
deleteBackup operation fail with a PathTraversal error before performing
any filesystem operation: the file-system trace is empty and the store
state — primary file, backup directory and open handle — is unchanged,
so no file is read, copied or deleted and the primary store is neither
closed nor replaced. -/
theorem c1_path_traversal_rejected_before_any_fs
    (dir : List String) (fname timestamp : String) (copyOk : Bool)
    (userId : Nat) (st : StoreState)
    (h : (containsSep fname || hasDotDot fname) = true ∨
         jsStartsWith (resolveJoin dir fname) (resolvedDir dir) = false) :
    (resultIsPathTraversal (dbRestore dir fname timestamp copyOk userId st).result = true ∧
     (dbRestore dir fname timestamp copyOk userId st).fsOps = [] ∧
     (dbRestore dir fname timestamp copyOk userId st).state = st) ∧
    (resultIsPathTraversal (dbDeleteBackup dir fname userId st).result = true ∧
     (dbDeleteBackup dir fname userId st).fsOps = [] ∧
     (dbDeleteBackup dir fname userId st).state = st) := by
  by_cases hc : (containsSep fname || hasDotDot fname) = true
  · constructor <;>
      simp [dbRestore, dbDeleteBackup, hc, resultIsPathTraversal, isPathTraversalError]
  · have hc' : (containsSep fname || hasDotDot fname) = false := by simpa using hc
    have hs : jsStartsWith (resolveJoin dir fname) (resolvedDir dir) = false := by
      rcases h with h | h
      · exact absurd h hc
      · exact h
    constructor <;>
      simp [dbRestore, dbDeleteBackup, hc', hs, resultIsPathTraversal, isPathTraversalError]

/-- Witness for C1 at the spec's own example `restore("../../etc/passwd")`
(and the same filename for deleteBackup), in a concrete store. -/
theorem c1_witness :
    resultIsPathTraversal
      (dbRestore dir0 "../../etc/passwd" "t" true 1 stWithBackup).result = true ∧
    (dbRestore dir0 "../../etc/passwd" "t" true 1 stWithBackup).fsOps = [] ∧
    (dbDeleteBackup dir0 "../../etc/passwd" 1 stWithBackup).fsOps = [] :=
  ⟨(c1_path_traversal_rejected_before_any_fs dir0 "../../etc/passwd" "t" true 1
      stWithBackup (Or.inl (by decide))).1.1,
   (c1_path_traversal_rejected_before_any_fs dir0 "../../etc/passwd" "t" true 1
      stWithBackup (Or.inl (by decide))).1.2.1,
   (c1_path_traversal_rejected_before_any_fs dir0 "../../etc/passwd" "t" true 1
      stWithBackup (Or.inl (by decide))).2.2.1⟩

/-- C2 (amended): the restore operation leaves the primary store Open
whenever it succeeds, and whenever it fails before the close of the
critical section; but when the file copy inside the critical section
fails after the store has been closed, the catch path reports the
failure without reopening, and the operation completes with the store
Closed.  The final open flag is exactly `!(reached the swap) || copyOk`. -/
theorem c2_store_open_iff_swap_copy_succeeds
    (dir : List String) (fname timestamp : String) (copyOk : Bool)
    (userId : Nat) (st : StoreState) (h : st.storeOpen = true) :
    (dbRestore dir fname timestamp copyOk userId st).state.storeOpen =
      (!(restoreReachesSwap dir fname st) || copyOk) := by
  by_cases hc : (containsSep fname || hasDotDot fname) = true
  · simp [dbRestore, restoreReachesSwap, hc, h]
  · have hc' : (containsSep fname || hasDotDot fname) = false := by simpa using hc
    by_cases hs : jsStartsWith (resolveJoin dir fname) (resolvedDir dir) = true
    · cases hl : st.backups.lookup fname with
      | none => simp [dbRestore, restoreReachesSwap, hc', hs, hl, h]
      | some f =>
        cases hv : f.valid
        · simp [dbRestore, restoreReachesSwap, hc', hs, hl, hv, h]
        · cases hm : st.mainDb <;> cases copyOk <;>
            simp [dbRestore, restoreReachesSwap, hc', hs, hl, hv, hm, h]
    · have hs' : jsStartsWith (resolveJoin dir fname) (resolvedDir dir) = false := by
        simpa using hs
      simp [dbRestore, restoreReachesSwap, hc', hs', h]

/-- Witness for C2 (amended) at a concrete valid backup with the copy
succeeding. -/
theorem c2_witness :
    (dbRestore dir0 "good.db" "t" true 1 stWithBackup).state.storeOpen =
      (!(restoreReachesSwap dir0 "good.db" stWithBackup) || true) :=
  c2_store_open_iff_swap_copy_succeeds dir0 "good.db" "t" true 1 stWithBackup rfl

/-- Counterexample to C2 as stated: when `fs.copyFileSync` fails inside
the critical section (after `databaseManager.close()`), the restore
operation completes with a failure result and the primary store still
Closed — an execution path of restore that terminates with the store
closed. -/
theorem c2_counterexample_copy_failure_leaves_store_closed :
    resOk (dbRestore dir0 "good.db" "t" false 1 stWithBackup).result = false ∧
    (dbRestore dir0 "good.db" "t" false 1 stWithBackup).state.storeOpen = false := by
  decide

/-- C6: a restore call whose target backup file does not exist fails with
the not-found error, and one whose target does not open as a well-formed
store fails with the corrupt-backup error; in both cases the store state
is completely unchanged — the primary store is not closed, not
overwritten, and no pre-restore snapshot is created.  Moreover in every
execution that closes the primary store, the read-only well-formedness
check of the backup happened strictly before the close. -/
theorem c6_restore_failure_leaves_primary_untouched
    (dir : List String) (fname timestamp : String) (copyOk : Bool)
    (userId : Nat) (st : StoreState)
    (hname : (containsSep fname || hasDotDot fname) = false)
    (hin : jsStartsWith (resolveJoin dir fname) (resolvedDir dir) = true) :
    (st.backups.lookup fname = none →
      dbRestore dir fname timestamp copyOk userId st =
        { result := .error (.fileNotFoundError "Backup file not found"),
          state := st, fsOps := [.existsCheck fname],
          audits := [restoreAudit userId false] }) ∧
    (∀ f, st.backups.lookup fname = some f → f.valid = false →
      dbRestore dir fname timestamp copyOk userId st =
        { result := .error (.databaseError "restore"
            "Backup file is corrupted or invalid"),
          state := st, fsOps := [.existsCheck fname, .openReadonly fname],
          audits := [restoreAudit userId false] }) ∧
    (FsOp.closeStore ∈ (dbRestore dir fname timestamp copyOk userId st).fsOps →
      beforeIn (.openReadonly fname) .closeStore
        (dbRestore dir fname timestamp copyOk userId st).fsOps = true) := by
  refine ⟨?_, ?_, ?_⟩
  · intro hl
    simp [dbRestore, hname, hin, hl]
  · intro f hl hv
    simp [dbRestore, hname, hin, hl, hv]
  · intro hmem
    cases hl : st.backups.lookup fname with
    | none =>
      simp [dbRestore, hname, hin, hl] at hmem
    | some f =>
      cases hv : f.valid with
      | false => simp [dbRestore, hname, hin, hl, hv] at hmem
      | true =>
        cases hm : st.mainDb <;> cases copyOk <;>
          simp [dbRestore, beforeIn, hname, hin, hl, hv, hm]

/-- Witness for C6: restoring a missing backup file in a concrete store
returns the not-found failure and leaves the store exactly as it was. -/
theorem c6_witness :
    dbRestore dir0 "missing.db" "t" true 1 st0 =
      { result := .error (.fileNotFoundError "Backup file not found"),
        state := st0, fsOps := [.existsCheck "missing.db"],
        audits := [restoreAudit 1 false] } :=
  (c6_restore_failure_leaves_primary_untouched dir0 "missing.db" "t" true 1 st0
      (by decide) (by decide)).1 rfl

/-- C3 (amended): every privileged entry point that takes a sessionId
passes through the session authorization guard first: when the sessionId
resolves to no user, the `db:restore` and `db:deleteBackup` handlers fail
with Unauthorized leaving the store unchanged, with zero file-system
operations and zero audit events, and the guard's outcome is independent
of the wrapped unit of work (the work is never invoked).  The guard
itself is modelled from the spec, its implementation not being in the
source tree. -/
theorem c3_guarded_handlers_fail_unauthorized_without_work
    (sessions : List (String × Nat)) (sessionId : String)
    (dir : List String) (fname timestamp : String) (copyOk : Bool)
    (st : StoreState) (h : sessions.lookup sessionId = none) :
    dbRestoreHandler sessions sessionId dir fname timestamp copyOk st =
      { result := .error .unauthorized, state := st, fsOps := [], audits := [] } ∧
    dbDeleteBackupHandler sessions sessionId dir fname st =
      { result := .error .unauthorized, state := st, fsOps := [], audits := [] } ∧
    (∀ work₁ work₂ : Nat → HandlerOut Unit,
      withAuthorization sessions sessionId st work₁ =
        withAuthorization sessions sessionId st work₂) := by
  refine ⟨?_, ?_, fun work₁ work₂ => ?_⟩ <;>
    simp [dbRestoreHandler, dbDeleteBackupHandler, withAuthorization, h]

/-- Witness for C3 (amended): an unknown sessionId against an empty
session table is rejected by the restore handler with no effects. -/
theorem c3_witness :
    dbRestoreHandler [] "deadbeef" dir0 "good.db" "t" true stWithBackup =
      { result := .error .unauthorized, state := stWithBackup,
        fsOps := [], audits := [] } :=
  (c3_guarded_handlers_fail_unauthorized_without_work [] "deadbeef" dir0
      "good.db" "t" true stWithBackup rfl).1

/-- Counterexample to C3 as stated: `db:migrate` and `db:backup` are
privileged entry points (they run schema migrations and create backup
files), but their handlers take no sessionId and call no authorization
guard.  Even when no session resolves to any user, the operations do not
fail with Unauthorized and their work runs: migrations execute and the
backup copy is performed. -/
theorem c3_counterexample_migrate_and_backup_run_without_any_session :
    isUnauthorizedResult (dbMigrate migrateEnvOk).result = false ∧
    resOk (dbMigrate migrateEnvOk).result = true ∧
    FsOp.runMigrations ∈ (dbMigrate migrateEnvOk).fsOps ∧
    isUnauthorizedResult (dbBackup "t" st0).result = false ∧
    (dbBackup "t" st0).fsOps ≠ [] := by
  decide

/-- C4 (amended): every completed attempt of the `db:restore` and
`db:deleteBackup` operations records exactly one terminal audit event
whose success flag matches the operation's actual outcome; those events
carry a details payload on success, and on failure carry the error text
inside the details payload (under the key `"error"`) while the
`errorMessage` field is absent.  `db:backup` records exactly one
terminal event per attempt with the correct success flag but with no
details payload and no errorMessage on either path.  `db:migrate`
records exactly one terminal event — with a details payload — on
success, and zero events on a failed attempt, its catch block returning
without logging.  No attempt of any of the four operations ever records
more than one terminal event. -/
theorem c4_one_terminal_audit_event_per_attempt
    (dir : List String) (fname timestamp : String) (copyOk : Bool)
    (userId : Nat) (st : StoreState) (env : MigrateEnv) :
    ((dbBackup timestamp st).audits =
       [backupAudit (resOk (dbBackup timestamp st).result)] ∧
     (backupAudit true).details = none ∧
     (backupAudit false).details = none ∧
     (backupAudit false).errorMessage = none) ∧
    ((dbRestore dir fname timestamp copyOk userId st).audits =
       [restoreAudit userId
         (resOk (dbRestore dir fname timestamp copyOk userId st).result)] ∧
     (restoreAudit userId true).details = some ["backupFilename"] ∧
     (restoreAudit userId false).details = some ["backupFilename", "error"] ∧
     (restoreAudit userId false).errorMessage = none) ∧
    ((dbDeleteBackup dir fname userId st).audits =
       [deleteBackupAudit userId fname
         (resOk (dbDeleteBackup dir fname userId st).result)] ∧
     (deleteBackupAudit userId fname true).details = some ["backupFilename"] ∧
     (deleteBackupAudit userId fname false).details = some ["error"] ∧
     (deleteBackupAudit userId fname false).errorMessage = none) ∧
    ((resOk (dbMigrate env).result = true → (dbMigrate env).audits = [migrateAudit]) ∧
     migrateAudit.details =
       some ["backupCreated", "migrationsApplied", "migrationsPending"] ∧
     (resOk (dbMigrate env).result = false → (dbMigrate env).audits = [])) := by
  refine ⟨⟨?_, rfl, rfl, rfl⟩, ⟨?_, rfl, rfl, rfl⟩, ⟨?_, rfl, rfl, rfl⟩, ?_, rfl, ?_⟩
  · cases hm : st.mainDb <;> simp [dbBackup, hm, resOk]
  · by_cases hc : (containsSep fname || hasDotDot fname) = true
    · simp [dbRestore, hc, resOk]
    · have hc' : (containsSep fname || hasDotDot fname) = false := by simpa using hc
      by_cases hs : jsStartsWith (resolveJoin dir fname) (resolvedDir dir) = true
      · cases hl : st.backups.lookup fname with
        | none => simp [dbRestore, hc', hs, hl, resOk]
        | some f =>
          cases hv : f.valid
          · simp [dbRestore, hc', hs, hl, hv, resOk]
          · cases hm : st.mainDb <;> cases copyOk <;>
              simp [dbRestore, hc', hs, hl, hv, hm, resOk]
      · have hs' : jsStartsWith (resolveJoin dir fname) (resolvedDir dir) = false := by
          simpa using hs
        simp [dbRestore, hc', hs', resOk]
  · by_cases hc : (containsSep fname || hasDotDot fname) = true
    · simp [dbDeleteBackup, hc, resOk]
    · have hc' : (containsSep fname || hasDotDot fname) = false := by simpa using hc
      by_cases hs : jsStartsWith (resolveJoin dir fname) (resolvedDir dir) = true
      · cases hl : st.backups.lookup fname <;> simp [dbDeleteBackup, hc', hs, hl, resOk]
      · have hs' : jsStartsWith (resolveJoin dir fname) (resolvedDir dir) = false := by
          simpa using hs
        simp [dbDeleteBackup, hc', hs', resOk]
  · intro hok
    cases hb : env.backupRes with
    | error e => simp [dbMigrate, hb, resOk] at hok
    | ok name =>
      cases hr : env.runRes with
      | error e => simp [dbMigrate, hb, hr, resOk] at hok
      | ok u => simp [dbMigrate, hb, hr]
  · intro hfail
    cases hb : env.backupRes with
    | error e => simp [dbMigrate, hb]
    | ok name =>
      cases hr : env.runRes with
      | error e => simp [dbMigrate, hb, hr]
      | ok u => simp [dbMigrate, hb, hr, resOk] at hfail

/-- Counterexample to C4 as stated, in three concrete parts.  A
completed, failed attempt of `db:migrate` (the pre-migration backup
throws) records zero terminal audit events, not the required one
`success:false` event.  A successful `db:backup` attempt records its
`success:true` event with no details payload, and a failed `db:backup`
attempt (primary store file absent) records its `success:false` event
with no `errorMessage` (and no details).  A failed `db:restore` attempt
records its `success:false` event with no `errorMessage` field — the
error text rides inside the details payload instead. -/
theorem c4_counterexample_missing_events_and_payloads :
    (resOk (dbMigrate migrateEnvBackupFails).result = false ∧
     (dbMigrate migrateEnvBackupFails).audits = []) ∧
    (resOk (dbBackup "t" st0).result = true ∧
     (dbBackup "t" st0).audits = [backupAudit true] ∧
     (backupAudit true).details = none) ∧
    (resOk (dbBackup "t" stNoMain).result = false ∧
     (dbBackup "t" stNoMain).audits = [backupAudit false] ∧
     (backupAudit false).errorMessage = none ∧
     (backupAudit false).details = none) ∧
    (resOk (dbRestore dir0 "missing.db" "t" true 1 st0).result = false ∧
     (dbRestore dir0 "missing.db" "t" true 1 st0).audits = [restoreAudit 1 false] ∧
     (restoreAudit 1 false).errorMessage = none ∧
     (restoreAudit 1 false).details = some ["backupFilename", "error"]) := by
  decide

/-- C5 (amended): `db:backup` fails with the source-missing error
(`FileNotFoundError`, the spec's `SourceMissing`) when no primary store
file exists, leaving the state unchanged; otherwise it copies the
primary file byte-for-byte to the timestamped filename
`backup_<timestamp>.db` in the backup directory, and populates the
returned metadata with row counts read from the live primary store
through the open database handle — not by opening the copy (their
contents coincide at that point in this sequential model). -/
theorem c5_backup_copy_and_counts_from_live_store
    (timestamp : String) (st : StoreState) :
    (st.mainDb = none →
      dbBackup timestamp st =
        { result := .error (.fileNotFoundError "Main database file not found"),
          state := st, fsOps := [.existsCheck "justice.db"],
          audits := [backupAudit false] }) ∧
    (∀ m, st.mainDb = some m →
      (dbBackup timestamp st).result =
        .ok { filename := "backup_" ++ timestamp ++ ".db",
              recordCount := m.records, isValid := true } ∧
      (dbBackup timestamp st).state.backups =
        st.backups ++ [("backup_" ++ timestamp ++ ".db", m)] ∧
      (dbBackup timestamp st).fsOps =
        [.existsCheck "justice.db",
         .copyToBackup ("backup_" ++ timestamp ++ ".db"), .readCountsLive]) := by
  constructor
  · intro hm
    simp [dbBackup, hm]
  · intro m hm
    simp [dbBackup, hm]

/-- Counterexample to C5 as stated: in a concrete successful backup run
the row counts are read from the live primary store handle, and no read
of the copy `backup_t.db` occurs. -/
theorem c5_counterexample_counts_read_from_live_not_copy :
    resOk (dbBackup "t" st0).result = true ∧
    FsOp.readCountsLive ∈ (dbBackup "t" st0).fsOps ∧
    ¬ (FsOp.readCountsFile "backup_t.db" ∈ (dbBackup "t" st0).fsOps) := by
  decide

/-- C7: the string channels pass the plaintext straight through the
platform pair, so `decrypt(encrypt(P)) = P` for every string plaintext;
but the buffer channels convert through `buffer.toString("utf8")`, which
replaces ill-formed byte sequences with U+FFFD, so for the raw buffer
`[0xFF]` the round trip silently returns the different bytes
`[0xEF, 0xBF, 0xBD]` with a success result — no loud failure.  This
contradicts the claim for raw-buffer plaintexts: the code is the slip,
the spec's invariant ("never silently returning corrupted data") the
intent. -/
theorem c7_buffer_roundtrip_silently_corrupts_non_utf8 :
    (∀ s : Str, secureStringRoundTrip s = s) ∧
    secureBufferRoundTrip [0xFF] = [0xEF, 0xBF, 0xBD] ∧
    secureBufferRoundTrip [0xFF] ≠ [0xFF] := by
  refine ⟨fun s => rfl, by decide, by decide⟩

/-- C8: the GDPR delete-all-user-data operation leaves the audit-log and
consent tables exactly unchanged (so every audit row referencing the
user survives, and no audit row is updated or deleted by this
subsystem), while the user's case and evidence rows are exactly the
filtered-out ones: none of the remaining case/evidence rows references
the user. -/
theorem c8_gdpr_delete_preserves_audit_and_consents
    (userId : Nat) (db : GdprDb) :
    (deleteUserData userId db).db.auditLogs = db.auditLogs ∧
    (deleteUserData userId db).db.consents = db.consents ∧
    (deleteUserData userId db).db.cases =
      db.cases.filter (fun r => r.userId != userId) ∧
    (deleteUserData userId db).db.evidence =
      db.evidence.filter (fun r => r.userId != userId) ∧
    (∀ r ∈ (deleteUserData userId db).db.cases, r.userId ≠ userId) ∧
    (∀ r ∈ (deleteUserData userId db).db.evidence, r.userId ≠ userId) := by
  refine ⟨rfl, rfl, rfl, rfl, ?_, ?_⟩ <;>
  · intro r hr
    simp [deleteUserData, List.mem_filter] at hr
    exact hr.2

/-- The tag-evidence loop applies exactly the items before the first
failing one and succeeds exactly when no item fails. -/
theorem tagEvidenceLoop_spec (env : TagEnv) (evidenceId userId : Nat)
    (tagIds : List Nat) (applied : List (Nat × Nat)) :
    (tagEvidenceLoop env evidenceId userId tagIds applied).2 =
      applied ++ (tagIds.takeWhile
        (fun t => !(tagItemFails env evidenceId userId t))).map
          (fun t => (evidenceId, t)) ∧
    (resOk (tagEvidenceLoop env evidenceId userId tagIds applied).1 = true ↔
      ∀ t ∈ tagIds, tagItemFails env evidenceId userId t = false) := by
  induction tagIds generalizing applied with
  | nil => simp [tagEvidenceLoop, resOk]
  | cons tagId rest ih =>
    cases ho : env.owns evidenceId userId with
    | false =>
      constructor
      · simp [tagEvidenceLoop, tagEvidenceItem, tagItemFails, ho]
      · constructor
        · intro hok
          exfalso
          simp [tagEvidenceLoop, tagEvidenceItem, ho, resOk] at hok
        · intro hall
          exact absurd (hall tagId (List.mem_cons_self _ _))
            (by simp [tagItemFails, ho])
    | true =>
      cases ht : env.tagOk tagId with
      | false =>
        constructor
        · simp [tagEvidenceLoop, tagEvidenceItem, tagItemFails, ho, ht]
        · constructor
          · intro hok
            exfalso
            simp [tagEvidenceLoop, tagEvidenceItem, ho, ht, resOk] at hok
          · intro hall
            exact absurd (hall tagId (List.mem_cons_self _ _))
              (by simp [tagItemFails, ho, ht])
      | true =>
        have hstep : tagEvidenceLoop env evidenceId userId (tagId :: rest) applied =
            tagEvidenceLoop env evidenceId userId rest (applied ++ [(evidenceId, tagId)]) := by
          simp [tagEvidenceLoop, tagEvidenceItem, ho, ht]
        rw [hstep]
        rcases ih (applied ++ [(evidenceId, tagId)]) with ⟨h2, h1⟩
        constructor
        · rw [h2]
          simp [tagItemFails, ho, ht]
        · rw [h1]
          constructor
          · intro hall t hmem
            rcases List.mem_cons.mp hmem with rfl | hmem'
            · simp [tagItemFails, ho, ht]
            · exact hall t hmem'
          · intro hall t hmem
            exact hall t (List.mem_cons_of_mem _ hmem)

/-- C9 (amended): the ownership-gated tag batch aborts at the first item
whose per-item check fails, so the whole batch fails and the failing
item and everything after it are not applied — but the items before the
first failure remain applied (the loop commits per item, so the batch is
not atomic).  On a nonempty batch the final applied set is exactly the
input plus the longest failure-free segment, and the batch succeeds
exactly when no item fails. -/
theorem c9_batch_aborts_on_first_failure_keeping_earlier_items
    (env : TagEnv) (evidenceId : Nat) (tagIds : List Nat) (userId : Nat)
    (applied : List (Nat × Nat)) (h : tagIds ≠ []) :
    (tagEvidence env evidenceId tagIds userId applied).2 =
      applied ++ (tagIds.takeWhile
        (fun t => !(tagItemFails env evidenceId userId t))).map
          (fun t => (evidenceId, t)) ∧
    (resOk (tagEvidence env evidenceId tagIds userId applied).1 = true ↔
      ∀ t ∈ tagIds, tagItemFails env evidenceId userId t = false) := by
  have hne : tagIds.isEmpty = false := by
    cases tagIds with
    | nil => exact absurd rfl h
    | cons a l => rfl
  simpa [tagEvidence, hne] using tagEvidenceLoop_spec env evidenceId userId tagIds applied

/-- Witness for C9 (amended): a singleton batch whose only item passes is
fully applied. -/
theorem c9_witness :
    (tagEvidence tagEnvCex 7 [1] 4 []).2 =
      [] ++ (([1].takeWhile (fun t => !(tagItemFails tagEnvCex 7 4 t))).map
        (fun t => (7, t))) :=
  (c9_batch_aborts_on_first_failure_keeping_earlier_items tagEnvCex 7 [1] 4 []
      (by decide)).1

/-- Counterexample to C9 as stated: in the batch `[1, 2]` under an
environment where tag 2 does not exist, the batch fails but item
`(7, 1)` has been applied — a partial application of an
ownership-gated batch write. -/
theorem c9_counterexample_partial_application :
    resOk (tagEvidence tagEnvCex 7 [1, 2] 4 []).1 = false ∧
    (tagEvidence tagEnvCex 7 [1, 2] 4 []).2 = [(7, 1)] := by
  decide

/-- C10: for `case:get` and `notifications:mark-read`, whenever every row
carrying the requested id belongs to a different user than the caller —
which covers both "the resource does not exist" and "it exists but is
foreign-owned" — the observable outcome is one fixed failure value that
does not depend on which of the two cases holds, so an external caller
cannot learn whether the resource exists. -/
theorem c10_ownership_failure_indistinguishable_from_absence
    (cases : List CaseRow) (rows : List NotificationRow)
    (caseId notificationId userId : Nat)
    (hc : ∀ r ∈ cases, r.id = caseId → r.userId ≠ userId)
    (hn : ∀ r ∈ rows, r.id = notificationId → r.userId ≠ userId) :
    caseGet cases caseId userId =
      (.error (.genericError
        ("Case with ID " ++ toString caseId ++ " not found or unauthorized")), []) ∧
    markNotificationRead rows notificationId userId =
      (.error (.notificationNotFound notificationId), rows) := by
  constructor
  · have hfind : cases.find? (fun r => r.id == caseId && r.userId == userId) = none := by
      rw [List.find?_eq_none]
      intro r hr
      by_cases h1 : r.id = caseId
      · simp [h1, hc r hr h1]
      · simp [h1]
    simp [caseGet, hfind]
  · cases hf : rows.find? (fun r => r.id == notificationId) with
    | none => simp [markNotificationRead, hf]
    | some r =>
      have hmem := List.mem_of_find?_eq_some hf
      have hid : r.id = notificationId := by simpa using List.find?_some hf
      have hne : r.userId ≠ userId := hn r hmem hid
      simp [markNotificationRead, hf, bne_iff_ne, hne]

/-- Witness for C10: a concrete case row and notification row owned by
user 2, accessed by user 3, yield the same failures as absent
resources. -/
theorem c10_witness :
    caseGet [{ id := 1, userId := 2, title := "a" }] 1 3 =
      (.error (.genericError
        ("Case with ID " ++ toString 1 ++ " not found or unauthorized")), []) ∧
    markNotificationRead [{ id := 5, userId := 2, read := false }] 5 3 =
      (.error (.notificationNotFound 5), [{ id := 5, userId := 2, read := false }]) :=
  c10_ownership_failure_indistinguishable_from_absence
    [{ id := 1, userId := 2, title := "a" }]
    [{ id := 5, userId := 2, read := false }] 1 5 3 (by decide) (by decide)

end JusticeCompanion
